import Mathlib

/-!
Shallow embedding of the `sgrams` package (S-Gram cyclic state transformer,
fraction-pattern analyzer and the two literal-table tree-counting families).

Python dictionaries preserve insertion order, so they are embedded as
insertion-ordered association lists; dictionary assignment is last-write-wins
on an existing key.  Exceptions become `Option` (`none` = the call raises).
All integer data in the tables is non-negative, so values are `Nat`; the one
negative intermediate (Python `(idx - 1) % len`) is rendered as
`(idx + len - 1) % len`, which agrees with Python's modulo for `idx ≥ 0`.
Presentation-only fields (symbolic notation strings, transformation strings,
formula parts) are omitted: no operation under verification reads them.
-/

/-- Python dict assignment `d[k] = v` on an insertion-ordered association
list: replace in place when the key exists, otherwise append. -/
def updEntry {α : Type} (m : List (String × α)) (k : String) (v : α) :
    List (String × α) :=
  if m.any (fun q => q.1 == k) then
    m.map (fun q => if q.1 == k then (k, v) else q)
  else m ++ [(k, v)]

/-- Python `d.get(k)` on an insertion-ordered association list. -/
def lookupSeq {α : Type} (m : List (String × α)) (k : String) : Option α :=
  (m.find? (fun q => q.1 == k)).map (fun q => q.2)

/-- The fields of `SGram` (src/sgrams/sgram.py) that the verified operations
read.  `fraction_patterns` and `additional_factors` are the two
insertion-ordered pattern dictionaries. -/
structure SGram where
  index : Nat
  catalan_number : Nat
  numerator : Nat
  denominator : Nat
  fraction_patterns : List (String × List Nat)
  additional_factors : List (String × List Nat)
deriving DecidableEq

/-- Embeds `SGram.get_all_patterns`: `dict(self.fraction_patterns)` then
`.update(self.additional_factors)` — additional factors overwrite
same-label fraction patterns. -/
def get_all_patterns (s : SGram) : List (String × List Nat) :=
  s.additional_factors.foldl (fun m q => updEntry m q.1 q.2) s.fraction_patterns

/-- Embeds `list(self.sgram.fraction_patterns.keys())[0]` guarded by the emptiness
check: the label of the first-inserted (primary) fraction pattern. -/
def primary_pattern_label (s : SGram) : Option String :=
  s.fraction_patterns.head?.map (fun q => q.1)

/-- Index of the last occurrence of `v` in `seq`.  The Python state-map build
(`StateTransformer._build_state_map`) writes `state_map[state][pattern]` once
per occurrence of `state`, so the surviving entry comes from the last one. -/
def lastIdxOf (seq : List Nat) (v : Nat) : Option Nat :=
  (seq.reverse.findIdx? (fun x => x == v)).map (fun j => seq.length - 1 - j)

/-- The `state_map[state][pattern]` entry for the pattern with sequence
`seq`: the circular successor of the last occurrence of `v`. -/
def stateMapNext (seq : List Nat) (v : Nat) : Option Nat :=
  (lastIdxOf seq v).bind (fun i => seq.get? ((i + 1) % seq.length))

/-- Embeds `state in self._state_map`: the state occurs in some merged pattern. -/
def stateKnown (s : SGram) (v : Nat) : Bool :=
  (get_all_patterns s).any (fun q => q.2.contains v)

/-- The `if pattern is None: pattern = list(fraction_patterns.keys())[0]`
defaulting shared by all transformer operations; `none` is the
`No patterns available` error. -/
def chosen_pattern (s : SGram) (pattern : Option String) : Option String :=
  match pattern with
  | some p => some p
  | none => primary_pattern_label s

/-- Embeds `StateTransformer.resolve`: forward circular step.  `none` covers the
three `ValueError` paths (no patterns, unknown state, pattern not applicable
to the state). -/
def resolve (s : SGram) (state : Nat) (pattern : Option String) : Option Nat :=
  match chosen_pattern s pattern with
  | none => none
  | some p =>
    if stateKnown s state then
      match lookupSeq (get_all_patterns s) p with
      | none => none
      | some seq => stateMapNext seq state
    else none

/-- Python `fraction_patterns.get(p) or additional_factors.get(p)`: a falsy
(empty) fraction-pattern list also falls through to the additional factors. -/
def fpOrAf (s : SGram) (p : String) : Option (List Nat) :=
  match lookupSeq s.fraction_patterns p with
  | some [] => lookupSeq s.additional_factors p
  | some seq => some seq
  | none => lookupSeq s.additional_factors p

/-- Circular predecessor of the first occurrence of `v` in `seq`
(`sequence.index(state)` takes the first match; Python `(idx - 1) % len`
equals `(idx + len - 1) % len` for `idx ≥ 0`). -/
def prevOfFirst (seq : List Nat) (v : Nat) : Option Nat :=
  (seq.findIdx? (fun x => x == v)).bind
    (fun i => seq.get? ((i + seq.length - 1) % seq.length))

/-- Embeds `StateTransformer.inform`: backward circular step.  Unlike `resolve` it
reads the sequence from `fraction_patterns` first. -/
def inform (s : SGram) (state : Nat) (pattern : Option String) : Option Nat :=
  match chosen_pattern s pattern with
  | none => none
  | some p =>
    match fpOrAf s p with
    | none => none
    | some seq => prevOfFirst seq state

/-- Embeds `StateTransformer.get_state_distance`: forward circular distance from
`a`'s first index to `b`'s first index in the `fraction_patterns`-first
sequence. -/
def get_state_distance (s : SGram) (a b : Nat) (pattern : Option String) :
    Option Nat :=
  match chosen_pattern s pattern with
  | none => none
  | some p =>
    match fpOrAf s p with
    | none => none
    | some seq =>
      match seq.findIdx? (fun x => x == a), seq.findIdx? (fun x => x == b) with
      | some fi, some ti =>
        if fi ≤ ti then some (ti - fi) else some (seq.length - fi + ti)
      | _, _ => none

/-- One step of `StateTransformer.trace_path`: `inform` when `reverse`,
otherwise `resolve`. -/
def trace_step (s : SGram) (state : Nat) (pattern : Option String)
    (reverse : Bool) : Option Nat :=
  if reverse then inform s state pattern else resolve s state pattern

/-- The loop of `trace_path`: the list of states appended after the start
state; a raising step aborts the whole call. -/
def trace_path_aux (s : SGram) (pattern : Option String) (reverse : Bool) :
    Nat → Nat → Option (List Nat)
  | _, 0 => some []
  | cur, steps + 1 =>
    match trace_step s cur pattern reverse with
    | none => none
    | some nxt => (trace_path_aux s pattern reverse nxt steps).map
        (fun l => nxt :: l)

/-- Embeds `StateTransformer.trace_path`: `[start]` followed by `steps` repeated
applications of the step operation. -/
def trace_path (s : SGram) (start steps : Nat) (pattern : Option String)
    (reverse : Bool) : Option (List Nat) :=
  (trace_path_aux s pattern reverse start steps).map (fun l => start :: l)

/-- The `k`-fold application of the step operation, for specifying the contents
of a traced path. -/
def stepN (s : SGram) (pattern : Option String) (reverse : Bool) :
    Nat → Nat → Option Nat
  | 0, v => some v
  | k + 1, v => (trace_step s v pattern reverse).bind (stepN s pattern reverse k)

/-- OEIS A000081 literal table (ngram_2d_catalan.py). -/
def A000081_SEQUENCE : List Nat :=
  [0, 1, 1, 2, 4, 9, 20, 48, 115, 286, 719, 1842, 4766, 12486, 32973, 87811,
   235381, 634847, 1721159, 4688676, 12826228]

/-- OEIS A000055 literal table (ngram_3d_catalan.py). -/
def A000055_SEQUENCE : List Nat :=
  [1, 1, 1, 1, 2, 3, 6, 11, 23, 47, 106, 235, 551, 1301, 3159, 7741, 19320,
   48629, 123867, 317955, 823065]

/-- Embeds `NGram2DCatalan.compute_value`: `SEQ[n] if n < len(SEQ) else 0` —
total, returns 0 past the table instead of raising. -/
def compute_value_2d (n : Nat) : Nat :=
  if n < A000081_SEQUENCE.length then A000081_SEQUENCE.getD n 0 else 0

/-- Embeds `NGram3DCatalan.compute_value`: `SEQ[n] if n < len(SEQ) else 0`. -/
def compute_value_3d (n : Nat) : Nat :=
  if n < A000055_SEQUENCE.length then A000055_SEQUENCE.getD n 0 else 0

/-- Embeds `FractionPatternAnalyzer._extract_patterns` restricted to the fields the
cycle-length analysis reads: primary fraction patterns first, then the
additional factors, each as (divisor, cycle_length). -/
def extract_pattern_lengths (s : SGram) : List (String × Nat) :=
  (s.fraction_patterns ++ s.additional_factors).map (fun q => (q.1, q.2.length))

/-- The dict comprehension `{p.divisor: p.cycle_length for p in self.patterns}`
of `analyze_cycle_relationships` (duplicate divisors collapse, last wins). -/
def cycle_lengths_dict (s : SGram) : List (String × Nat) :=
  (extract_pattern_lengths s).foldl (fun m q => updEntry m q.1 q.2) []

/-- Embeds `lengths = list(cycle_lengths.values())` of `analyze_cycle_relationships`. -/
def analyze_cycle_lengths (s : SGram) : List Nat :=
  (cycle_lengths_dict s).map (fun q => q.2)

/-- Python `reduce(gcd, lengths)` on a non-empty list, and the `else 1`
branch on an empty one. -/
def reduce_gcd (l : List Nat) : Nat :=
  match l with
  | [] => 1
  | x :: xs => xs.foldl Nat.gcd x

/-- The `common_divisor` field of `analyze_cycle_relationships`. -/
def analyze_common_divisor (s : SGram) : Nat :=
  reduce_gcd (analyze_cycle_lengths s)

/-- Literal data of `SGramFactory.create_sgram_0`. -/
def create_sgram_0 : SGram :=
  { index := 0, catalan_number := 1, numerator := 0, denominator := 0,
    fraction_patterns := [("0/1", [0])],
    additional_factors := [] }

/-- Literal data of `SGramFactory.create_sgram_1`. -/
def create_sgram_1 : SGram :=
  { index := 1, catalan_number := 2, numerator := 1, denominator := 1,
    fraction_patterns := [("1/1", [1])],
    additional_factors := [("1/1", [1])] }

/-- Literal data of `SGramFactory.create_sgram_2`. -/
def create_sgram_2 : SGram :=
  { index := 2, catalan_number := 5, numerator := 2, denominator := 4,
    fraction_patterns := [("1/3", [1, 3]), ("1/2", [2])],
    additional_factors := [("1/1", [4])] }

/-- Literal data of `SGramFactory.create_sgram_3`. -/
def create_sgram_3 : SGram :=
  { index := 3, catalan_number := 14, numerator := 3, denominator := 9,
    fraction_patterns := [("1/7", [1, 4, 2, 8, 5, 7]), ("1/3", [3, 6])],
    additional_factors := [("1/1", [9])] }

/-- Literal data of `SGramFactory.create_sgram_4`. -/
def create_sgram_4 : SGram :=
  { index := 4, catalan_number := 42, numerator := 4, denominator := 16,
    fraction_patterns :=
      [("1/13", [1, 5, 3, 15, 11, 13]), ("2/13", [2, 10, 7, 14, 6, 9]),
       ("1/4", [4, 8, 12])],
    additional_factors := [("1/4", [4, 12]), ("1/2", [8]), ("1/1", [16])] }

/-- Literal data of `SGramFactory.create_sgram_5`. -/
def create_sgram_5 : SGram :=
  { index := 5, catalan_number := 132, numerator := 5, denominator := 25,
    fraction_patterns :=
      [("1/21", [1, 6, 4, 24, 19, 21]), ("2/21", [2, 12, 9, 23, 13, 16]),
       ("3/21", [3, 18, 14, 22, 7, 11]), ("7/21", [8, 17]),
       ("1/5", [5, 10, 15, 20])],
    additional_factors := [("1/1", [25])] }

/-- Literal data of `SGramFactory.create_sgram_6`. -/
def create_sgram_6 : SGram :=
  { index := 6, catalan_number := 429, numerator := 6, denominator := 36,
    fraction_patterns :=
      [("1/31", [1, 7, 5, 35, 29, 31]), ("2/31", [2, 14, 11, 34, 22, 25]),
       ("3/31", [3, 21, 17, 33, 15, 19]), ("4/31", [4, 28, 23, 32, 8, 13]),
       ("8/31", [9, 20, 10, 27, 16, 26]), ("1/6", [6, 12, 18, 24, 30])],
    additional_factors :=
      [("1/6", [6, 30]), ("1/3", [12, 24]), ("1/2", [18]), ("1/1", [36])] }

/-- Literal data of `SGramFactory.create_sgram_7`. -/
def create_sgram_7 : SGram :=
  { index := 7, catalan_number := 1430, numerator := 7, denominator := 49,
    fraction_patterns :=
      [("1/43", [1, 8, 6, 48, 41, 43]), ("2/43", [2, 16, 13, 47, 33, 36]),
       ("3/43", [3, 24, 20, 46, 25, 29]), ("4/43", [4, 32, 27, 45, 17, 22]),
       ("5/43", [5, 40, 34, 44, 9, 15]), ("9/43", [10, 23, 12, 39, 26, 37]),
       ("10/43", [11, 31, 19, 38, 18, 30]), ("1/7", [7, 14, 21, 28, 35, 42])],
    additional_factors := [("1/1", [49])] }

/-- Literal data of `SGramFactory.create_sgram_8`. -/
def create_sgram_8 : SGram :=
  { index := 8, catalan_number := 4862, numerator := 8, denominator := 64,
    fraction_patterns :=
      [("1/57", [1, 9, 7, 63, 55, 57]), ("2/57", [2, 18, 15, 62, 46, 49]),
       ("3/57", [3, 27, 23, 61, 37, 41]), ("4/57", [4, 36, 31, 60, 28, 33]),
       ("5/57", [5, 45, 39, 59, 19, 25]), ("6/57", [6, 54, 47, 58, 10, 17]),
       ("10/57", [11, 26, 14, 53, 38, 50]), ("11/57", [12, 35, 22, 52, 29, 42]),
       ("12/57", [13, 44, 30, 51, 20, 34]), ("19/57", [21, 43]),
       ("1/8", [8, 16, 24, 32, 40, 48, 56])],
    additional_factors :=
      [("1/8", [8, 24, 40, 56]), ("1/4", [16, 48]), ("1/2", [32]),
       ("1/1", [64])] }

/-- Literal data of `SGramFactory.create_sgram_9`. -/
def create_sgram_9 : SGram :=
  { index := 9, catalan_number := 16796, numerator := 9, denominator := 81,
    fraction_patterns :=
      [("1/73", [1, 10, 8, 80, 71, 73]), ("2/73", [2, 20, 17, 79, 61, 64]),
       ("3/73", [3, 30, 26, 78, 51, 55]), ("4/73", [4, 40, 35, 77, 41, 46]),
       ("5/73", [5, 50, 44, 76, 31, 37]), ("6/73", [6, 60, 53, 75, 21, 28]),
       ("7/73", [7, 70, 62, 74, 11, 19]), ("11/73", [12, 29, 16, 69, 52, 65]),
       ("12/73", [13, 39, 25, 68, 42, 56]), ("13/73", [14, 49, 34, 67, 32, 47]),
       ("14/73", [15, 59, 43, 66, 22, 38]), ("21/73", [23, 48, 24, 58, 33, 57]),
       ("1/9", [9, 18, 27, 36, 45, 54, 63, 72])],
    additional_factors :=
      [("1/9", [9, 18, 36, 45, 63, 72]), ("1/3", [27, 54]), ("1/1", [81])] }

/-- Literal data of `SGramFactory.create_sgram_10`. -/
def create_sgram_10 : SGram :=
  { index := 10, catalan_number := 58786, numerator := 10, denominator := 100,
    fraction_patterns :=
      [("1/91", [1, 11, 9, 99, 89, 91]), ("2/91", [2, 22, 19, 98, 78, 81]),
       ("3/91", [3, 33, 29, 97, 67, 71]), ("4/91", [4, 44, 39, 96, 56, 61]),
       ("5/91", [5, 55, 49, 95, 45, 51]), ("6/91", [6, 66, 59, 94, 34, 41]),
       ("7/91", [7, 77, 69, 93, 23, 31]), ("8/91", [8, 88, 79, 92, 12, 21]),
       ("12/91", [13, 32, 18, 87, 68, 82]), ("13/91", [14, 43, 28, 86, 57, 72]),
       ("14/91", [15, 54, 38, 85, 46, 62]), ("15/91", [16, 65, 48, 84, 35, 52]),
       ("16/91", [17, 76, 58, 83, 24, 42]), ("23/91", [25, 53, 27, 75, 47, 73]),
       ("24/91", [26, 64, 37, 74, 36, 63]),
       ("1/10", [10, 20, 30, 40, 50, 60, 70, 80, 90])],
    additional_factors :=
      [("1/10", [10, 30, 70, 90]), ("1/5", [20, 40, 60, 80]), ("1/2", [50]),
       ("1/1", [100])] }

/-- Literal data of `SGramFactory.create_sgram_11`. -/
def create_sgram_11 : SGram :=
  { index := 11, catalan_number := 208012, numerator := 11, denominator := 121,
    fraction_patterns :=
      [("1/111", [1, 12, 10, 120, 109, 111]), ("2/111", [2, 24, 21, 119, 97, 100]),
       ("3/111", [3, 36, 32, 118, 85, 89]), ("4/111", [4, 48, 43, 117, 73, 78]),
       ("5/111", [5, 60, 54, 116, 61, 67]), ("6/111", [6, 72, 65, 115, 49, 56]),
       ("7/111", [7, 84, 76, 114, 37, 45]), ("8/111", [8, 96, 87, 113, 25, 34]),
       ("9/111", [9, 108, 98, 112, 13, 23]), ("13/111", [14, 35, 20, 107, 86, 101]),
       ("14/111", [15, 47, 31, 106, 74, 90]), ("15/111", [16, 59, 42, 105, 62, 79]),
       ("16/111", [17, 71, 53, 104, 50, 68]), ("17/111", [18, 83, 64, 103, 38, 57]),
       ("18/111", [19, 95, 75, 102, 26, 46]), ("25/111", [27, 58, 30, 94, 63, 91]),
       ("26/111", [28, 70, 41, 93, 51, 80]), ("27/111", [29, 82, 52, 92, 39, 69]),
       ("37/111", [40, 81]),
       ("1/11", [11, 22, 33, 44, 55, 66, 77, 88, 99, 110])],
    additional_factors := [("1/1", [121])] }

/-- Embeds `SGramFactory.create_all_sgrams`: the twelve S-Grams, indices 0-11. -/
def create_all_sgrams : List SGram :=
  [create_sgram_0, create_sgram_1, create_sgram_2, create_sgram_3,
   create_sgram_4, create_sgram_5, create_sgram_6, create_sgram_7,
   create_sgram_8, create_sgram_9, create_sgram_10, create_sgram_11]

/-- The `k`-fold application of `resolve` with a fixed pattern argument, for the
cycle-closure property. -/
def resolveN (s : SGram) (p : Option String) : Nat → Nat → Option Nat
  | 0, v => some v
  | k + 1, v => (resolve s v p).bind (resolveN s p k)

/-- The sequence a `trace_path` call walks: the merged-view sequence of the
chosen pattern in the forward direction (`resolve`), the
`fraction_patterns`-first sequence in the backward direction (`inform`). -/
def traceSeq (s : SGram) (pattern : Option String) (reverse : Bool) :
    Option (List Nat) :=
  match chosen_pattern s pattern with
  | none => none
  | some p => if reverse then fpOrAf s p else lookupSeq (get_all_patterns s) p

/-- Modelled from the spec: `computeValue` for the 2D (rooted-tree) family as
§4.1 words it — `table[index]`, failing (`none`) for an index past the
table's recorded length.  For comparison with `compute_value_2d`, which the
source makes total with an `else 0` branch. -/
def compute_value_2d_specModel (n : Nat) : Option Nat :=
  if n < A000081_SEQUENCE.length then some (A000081_SEQUENCE.getD n 0) else none

/-- Modelled from the spec: `computeValue` for the 3D (unlabeled-tree) family
as §4.1 words it, for comparison with `compute_value_3d`. -/
def compute_value_3d_specModel (n : Nat) : Option Nat :=
  if n < A000055_SEQUENCE.length then some (A000055_SEQUENCE.getD n 0) else none


theorem lookupSeq_mem {α : Type} {m : List (String × α)} {k : String} {v : α}
    (h : lookupSeq m k = some v) : (k, v) ∈ m := by
  unfold lookupSeq at h
  cases hf : m.find? (fun q => q.1 == k) with
  | none => rw [hf] at h; simp at h
  | some q =>
    rw [hf] at h
    simp only [Option.map_some'] at h
    have hq := List.mem_of_find?_eq_some hf
    have hp := List.find?_some hf
    have hk : q.1 = k := by simpa using hp
    have : q = (k, v) := by
      cases q
      simp_all
    rw [this] at hq
    exact hq

theorem stateKnown_of_mem {s : SGram} {l : String} {seq : List Nat} {v : Nat}
    (hq : (l, seq) ∈ get_all_patterns s) (hv : v ∈ seq) :
    stateKnown s v = true := by
  unfold stateKnown
  rw [List.any_eq_true]
  refine ⟨(l, seq), hq, ?_⟩
  simpa [List.contains] using hv

theorem stateMapNext_none {seq : List Nat} {v : Nat} (hv : v ∉ seq) :
    stateMapNext seq v = none := by
  unfold stateMapNext lastIdxOf
  rw [List.findIdx?_eq_none_iff.mpr]
  · rfl
  · intro x hx
    simp only [beq_eq_false_iff_ne, ne_eq]
    intro hxv
    exact hv (by rw [← hxv]; exact List.mem_reverse.mp hx)

theorem stateMapNext_mem {seq : List Nat} {v : Nat} (hv : v ∈ seq) :
    ∃ w, stateMapNext seq v = some w ∧ w ∈ seq := by
  have hsome : (seq.reverse.findIdx? (fun x => x == v)).isSome = true := by
    rw [List.findIdx?_isSome, List.any_eq_true]
    exact ⟨v, List.mem_reverse.mpr hv, by simp⟩
  obtain ⟨j, hj⟩ := Option.isSome_iff_exists.mp hsome
  have hlen : 0 < seq.length := List.length_pos.mpr (List.ne_nil_of_mem hv)
  have hidx : (seq.length - 1 - j + 1) % seq.length < seq.length :=
    Nat.mod_lt _ hlen
  refine ⟨seq.get ⟨(seq.length - 1 - j + 1) % seq.length, hidx⟩, ?_, List.get_mem _ _ _⟩
  unfold stateMapNext lastIdxOf
  rw [hj]
  exact List.get?_eq_get hidx

theorem prevOfFirst_none {seq : List Nat} {v : Nat} (hv : v ∉ seq) :
    prevOfFirst seq v = none := by
  unfold prevOfFirst
  rw [List.findIdx?_eq_none_iff.mpr]
  · rfl
  · intro x hx
    simp only [beq_eq_false_iff_ne, ne_eq]
    intro hxv
    exact hv (hxv ▸ hx)

theorem prevOfFirst_mem {seq : List Nat} {v : Nat} (hv : v ∈ seq) :
    ∃ w, prevOfFirst seq v = some w ∧ w ∈ seq := by
  have hsome : (seq.findIdx? (fun x => x == v)).isSome = true := by
    rw [List.findIdx?_isSome, List.any_eq_true]
    exact ⟨v, hv, by simp⟩
  obtain ⟨i, hi⟩ := Option.isSome_iff_exists.mp hsome
  have hlen : 0 < seq.length := List.length_pos.mpr (List.ne_nil_of_mem hv)
  have hidx : (i + seq.length - 1) % seq.length < seq.length := Nat.mod_lt _ hlen
  refine ⟨seq.get ⟨(i + seq.length - 1) % seq.length, hidx⟩, ?_, List.get_mem _ _ _⟩
  unfold prevOfFirst
  rw [hi]
  exact List.get?_eq_get hidx

theorem resolve_none_of_not_mem {s : SGram} {l : String} {seq : List Nat} {v : Nat}
    (h : lookupSeq (get_all_patterns s) l = some seq) (hv : v ∉ seq) :
    resolve s v (some l) = none := by
  unfold resolve chosen_pattern
  cases hk : stateKnown s v with
  | false => simp [hk]
  | true => simp [hk, h, stateMapNext_none hv]

theorem inform_none_of_not_mem {s : SGram} {l : String} {seq : List Nat} {v : Nat}
    (h : fpOrAf s l = some seq) (hv : v ∉ seq) :
    inform s v (some l) = none := by
  show (match fpOrAf s l with
    | none => none
    | some sq => prevOfFirst sq v) = none
  rw [h]
  exact prevOfFirst_none hv

theorem distance_none_of_not_mem {s : SGram} {l : String} {seq : List Nat} {a b : Nat}
    (h : fpOrAf s l = some seq) (hab : a ∉ seq ∨ b ∉ seq) :
    get_state_distance s a b (some l) = none := by
  unfold get_state_distance chosen_pattern
  simp only [h]
  cases hab with
  | inl ha =>
    have ha' : seq.findIdx? (fun x => x == a) = none := by
      rw [List.findIdx?_eq_none_iff]
      intro x hx
      simp only [beq_eq_false_iff_ne, ne_eq]
      intro hxa
      exact ha (hxa ▸ hx)
    rw [ha']
  | inr hb =>
    have hb' : seq.findIdx? (fun x => x == b) = none := by
      rw [List.findIdx?_eq_none_iff]
      intro x hx
      simp only [beq_eq_false_iff_ne, ne_eq]
      intro hxb
      exact hb (hxb ▸ hx)
    rw [hb']
    cases seq.findIdx? (fun x => x == a) <;> rfl

/-- Decided table: on every merged pattern of every factory S-Gram, `resolve`
returns the circular successor of the value's first index. -/
theorem resolve_table :
    ∀ s ∈ create_all_sgrams, ∀ q ∈ get_all_patterns s, ∀ v ∈ q.2,
      resolve s v (some q.1) =
        q.2.get? ((q.2.findIdx (fun x => x == v) + 1) % q.2.length) := by decide

/-- C1 (counterexample): `compute_value` does not raise at index 21 — it
returns 0 for both tree-counting families, where the spec-modelled lookup
fails. -/
theorem c1_counterexample :
    compute_value_2d 21 = 0 ∧ compute_value_3d 21 = 0 ∧
    compute_value_2d_specModel 21 = none ∧
    compute_value_3d_specModel 21 = none := by decide

/-- C1 (amended): for the two table-backed families `compute_value` returns
the literal table entry for every index within the table (0-20) and returns
0 — it does not fail — for every index exceeding the table's recorded
length. -/
theorem c1_compute_value_amended :
    (∀ n < 21, some (compute_value_2d n) = A000081_SEQUENCE.get? n ∧
               some (compute_value_3d n) = A000055_SEQUENCE.get? n) ∧
    (∀ n, 21 ≤ n → compute_value_2d n = 0 ∧ compute_value_3d n = 0) := by
  constructor
  · decide
  · intro n hn
    have h1 : A000081_SEQUENCE.length = 21 := rfl
    have h2 : A000055_SEQUENCE.length = 21 := rfl
    constructor
    · unfold compute_value_2d
      rw [h1, if_neg (by omega)]
    · unfold compute_value_3d
      rw [h2, if_neg (by omega)]

/-- C1 (witness): the amended theorem evaluated at indices 5 and 21. -/
theorem c1_witness :
    some (compute_value_2d 5) = A000081_SEQUENCE.get? 5 ∧
    compute_value_2d 21 = 0 :=
  ⟨(c1_compute_value_amended.1 5 (by decide)).1,
   (c1_compute_value_amended.2 21 (by decide)).1⟩

/-- C2 (counterexample): for the fraction-pattern cycle `'1/4'` of S-Gram 4
(sequence `[4, 8, 12]`) and the value 4 in it, `inform(resolve(4))` is 8,
not 4: `resolve` follows the merged view (where the additional factor
`'1/4' = [4, 12]` shadows), while `inform` follows `fraction_patterns`. -/
theorem c2_counterexample :
    ("1/4", [4, 8, 12]) ∈ create_sgram_4.fraction_patterns ∧
    (4 : Nat) ∈ ([4, 8, 12] : List Nat) ∧
    (resolve create_sgram_4 4 (some "1/4")).bind
      (fun w => inform create_sgram_4 w (some "1/4")) = some 8 ∧
    (resolve create_sgram_4 4 (some "1/4")).bind
      (fun w => inform create_sgram_4 w (some "1/4")) ≠ some 4 := by decide

/-- C2 (amended): the inverse laws hold for every cycle whose label denotes
the same sequence to `resolve` (merged view) and to `inform`
(`fraction_patterns`-first view) — that is, every label not shadowed by a
different additional-factor sequence. -/
theorem c2_inverse_laws_amended :
    ∀ s ∈ create_all_sgrams, ∀ q ∈ get_all_patterns s,
      fpOrAf s q.1 = some q.2 → ∀ v ∈ q.2,
      (resolve s v (some q.1)).bind (fun w => inform s w (some q.1)) = some v ∧
      (inform s v (some q.1)).bind (fun w => resolve s w (some q.1)) = some v := by
  decide

/-- C2 (witness): the amended inverse laws at S-Gram 3, cycle `'1/7'`,
value 1. -/
theorem c2_witness :
    (resolve create_sgram_3 1 (some "1/7")).bind
      (fun w => inform create_sgram_3 w (some "1/7")) = some 1 ∧
    (inform create_sgram_3 1 (some "1/7")).bind
      (fun w => resolve create_sgram_3 w (some "1/7")) = some 1 :=
  c2_inverse_laws_amended create_sgram_3 (by decide)
    ("1/7", [1, 4, 2, 8, 5, 7]) (by decide) (by decide) 1 (by decide)

/-- C3: on every cycle as `resolve` chooses it (the merged pattern view),
`resolve` returns `sequence[(i+1) mod length]` for `i` the first index of
the value, and fails for every value absent from the chosen sequence. -/
theorem c3_resolve_spec :
    ∀ s ∈ create_all_sgrams, ∀ l seq,
      lookupSeq (get_all_patterns s) l = some seq →
      (∀ v ∈ seq, resolve s v (some l) =
        seq.get? ((seq.findIdx (fun x => x == v) + 1) % seq.length)) ∧
      (∀ v, v ∉ seq → resolve s v (some l) = none) := by
  intro s hs l seq hlook
  constructor
  · intro v hv
    exact resolve_table s hs (l, seq) (lookupSeq_mem hlook) v hv
  · intro v hv
    exact resolve_none_of_not_mem hlook hv

/-- C3 (witness): the resolve specification at S-Gram 3, cycle `'1/7'`,
value 1 (present) and value 100 (absent). -/
theorem c3_witness :
    resolve create_sgram_3 1 (some "1/7") =
      [1, 4, 2, 8, 5, 7].get?
        (([1, 4, 2, 8, 5, 7].findIdx (fun x => x == 1) + 1) %
          ([1, 4, 2, 8, 5, 7] : List Nat).length) ∧
    resolve create_sgram_3 100 (some "1/7") = none :=
  ⟨(c3_resolve_spec create_sgram_3 (by decide) "1/7" [1, 4, 2, 8, 5, 7]
      (by decide)).1 1 (by decide),
   (c3_resolve_spec create_sgram_3 (by decide) "1/7" [1, 4, 2, 8, 5, 7]
      (by decide)).2 100 (by decide)⟩

/-- C4 (counterexample): `analyze_cycle_relationships` on S-Gram 3 reports a
GCD of 1, not 2: the additional-factor cycle `'1/1'` of length 1 is
included. -/
theorem c4_counterexample :
    analyze_common_divisor create_sgram_3 = 1 ∧
    analyze_common_divisor create_sgram_3 ≠ 2 := by decide

/-- C4 (amended): the analyzer's cycle lengths on S-Gram 3 are `[6, 2, 1]`
(the two primary cycles plus the `'1/1'` additional factor) with GCD 1; the
GCD over the two primary-family cycle lengths `[6, 2]` alone is 2. -/
theorem c4_gcd_amended :
    analyze_cycle_lengths create_sgram_3 = [6, 2, 1] ∧
    analyze_common_divisor create_sgram_3 = 1 ∧
    create_sgram_3.fraction_patterns.map (fun q => q.2.length) = [6, 2] ∧
    reduce_gcd (create_sgram_3.fraction_patterns.map (fun q => q.2.length)) = 2 := by
  decide

/-- C5: on every merged-view cycle of length `L`, applying `resolve` `L`
times starting from any value of the cycle returns that value. -/
theorem c5_cycle_closure :
    ∀ s ∈ create_all_sgrams, ∀ q ∈ get_all_patterns s, ∀ v ∈ q.2,
      resolveN s (some q.1) q.2.length v = some v := by decide

/-- C5 (witness): six forward steps around the `'1/7'` cycle of S-Gram 3
return to 1. -/
theorem c5_witness : resolveN create_sgram_3 (some "1/7") 6 1 = some 1 :=
  c5_cycle_closure create_sgram_3 (by decide)
    ("1/7", [1, 4, 2, 8, 5, 7]) (by decide) 1 (by decide)

/-- C8: every single-element cycle, in `fraction_patterns` and in
`additional_factors` alike, is a fixed point of both `resolve` and
`inform`; neither operation fails on it. -/
theorem c8_singleton_fixed_point :
    ∀ s ∈ create_all_sgrams,
      ∀ q ∈ s.fraction_patterns ++ s.additional_factors,
      q.2.length = 1 → ∀ v ∈ q.2,
      resolve s v (some q.1) = some v ∧ inform s v (some q.1) = some v := by
  decide

/-- C8 (witness): the singleton cycle `'0/1' = [0]` of S-Gram 0. -/
theorem c8_witness :
    resolve create_sgram_0 0 (some "0/1") = some 0 ∧
    inform create_sgram_0 0 (some "0/1") = some 0 :=
  c8_singleton_fixed_point create_sgram_0 (by decide) ("0/1", [0])
    (by decide) (by decide) 0 (by decide)

/-- C9: whenever a label occurs in both pattern dictionaries,
`get_all_patterns` maps it to the additional-factors sequence; such shared
labels exist exactly at the factory indices 1, 4, 6, 8, 9 and 10. -/
theorem c9_shadowing :
    (∀ s ∈ create_all_sgrams, ∀ q ∈ s.fraction_patterns,
      ∀ r ∈ s.additional_factors, q.1 = r.1 →
      lookupSeq (get_all_patterns s) q.1 = some r.2) ∧
    (∀ s ∈ [create_sgram_1, create_sgram_4, create_sgram_6, create_sgram_8,
            create_sgram_9, create_sgram_10],
      ∃ q ∈ s.fraction_patterns, ∃ r ∈ s.additional_factors, q.1 = r.1) := by
  constructor
  · decide
  · decide

/-- C9 (witness): at S-Gram 4 the shared label `'1/4'` resolves to the
additional-factor sequence `[4, 12]`, not the fraction-pattern sequence
`[4, 8, 12]`. -/
theorem c9_witness :
    lookupSeq (get_all_patterns create_sgram_4) "1/4" = some [4, 12] :=
  c9_shadowing.1 create_sgram_4 (by decide) ("1/4", [4, 8, 12]) (by decide)
    ("1/4", [4, 12]) (by decide) rfl

/-- C10: every pattern sequence of every factory S-Gram, in both
dictionaries, is non-empty and has pairwise-distinct entries. -/
theorem c10_sequences_nodup :
    ∀ s ∈ create_all_sgrams,
      ∀ q ∈ s.fraction_patterns ++ s.additional_factors,
      q.2 ≠ [] ∧ q.2.Nodup := by decide

/-- C10 (witness): the `'1/7'` sequence of S-Gram 3. -/
theorem c10_witness :
    ([1, 4, 2, 8, 5, 7] : List Nat) ≠ [] ∧
    ([1, 4, 2, 8, 5, 7] : List Nat).Nodup :=
  c10_sequences_nodup create_sgram_3 (by decide)
    ("1/7", [1, 4, 2, 8, 5, 7]) (by decide)

/-- Decided table: `get_state_distance` on every `fraction_patterns`-first
cycle equals the forward circular index difference, is 0 on the diagonal,
and pairs with its reverse to the cycle length. -/
theorem distance_table :
    ∀ s ∈ create_all_sgrams,
      ∀ q ∈ s.fraction_patterns ++ s.additional_factors,
      ∀ seq, fpOrAf s q.1 = some seq →
      (∀ a ∈ seq, ∀ b ∈ seq,
        get_state_distance s a b (some q.1) =
          some ((seq.findIdx (fun x => x == b) + seq.length -
                 seq.findIdx (fun x => x == a)) % seq.length)) ∧
      (∀ a ∈ seq, get_state_distance s a a (some q.1) = some 0) ∧
      (∀ a ∈ seq, ∀ b ∈ seq, a ≠ b →
        (get_state_distance s a b (some q.1)).bind
          (fun d1 => (get_state_distance s b a (some q.1)).map
            (fun d2 => d1 + d2)) = some seq.length) := by decide

/-- C6: on every cycle as the distance operation chooses it
(`fraction_patterns` first), `get_state_distance` equals the forward
circular distance `(to_idx - from_idx) mod L` (written without subtraction
as `(to_idx + L - from_idx) mod L`), fails when either value is absent,
is 0 from a value to itself, and the two directions of a pair of distinct
values sum to the cycle length. -/
theorem c6_distance_spec :
    ∀ s ∈ create_all_sgrams,
      ∀ q ∈ s.fraction_patterns ++ s.additional_factors,
      ∀ seq, fpOrAf s q.1 = some seq →
      (∀ a ∈ seq, ∀ b ∈ seq,
        get_state_distance s a b (some q.1) =
          some ((seq.findIdx (fun x => x == b) + seq.length -
                 seq.findIdx (fun x => x == a)) % seq.length)) ∧
      (∀ a b : Nat, a ∉ seq ∨ b ∉ seq →
        get_state_distance s a b (some q.1) = none) ∧
      (∀ a ∈ seq, get_state_distance s a a (some q.1) = some 0) ∧
      (∀ a ∈ seq, ∀ b ∈ seq, a ≠ b →
        (get_state_distance s a b (some q.1)).bind
          (fun d1 => (get_state_distance s b a (some q.1)).map
            (fun d2 => d1 + d2)) = some seq.length) := by
  intro s hs q hq seq hseq
  have h := distance_table s hs q hq seq hseq
  exact ⟨h.1, fun a b hab => distance_none_of_not_mem hseq hab, h.2.1, h.2.2⟩

/-- C6 (witness): the distance specification on the `'1/7'` cycle of
S-Gram 3 at the pair (1, 4), the absent value 100, and the diagonal at 1. -/
theorem c6_witness :
    get_state_distance create_sgram_3 1 4 (some "1/7") =
      some (([1, 4, 2, 8, 5, 7].findIdx (fun x => x == 4) +
             ([1, 4, 2, 8, 5, 7] : List Nat).length -
             [1, 4, 2, 8, 5, 7].findIdx (fun x => x == 1)) %
            ([1, 4, 2, 8, 5, 7] : List Nat).length) ∧
    get_state_distance create_sgram_3 100 1 (some "1/7") = none ∧
    get_state_distance create_sgram_3 1 1 (some "1/7") = some 0 ∧
    (get_state_distance create_sgram_3 1 4 (some "1/7")).bind
      (fun d1 => (get_state_distance create_sgram_3 4 1 (some "1/7")).map
        (fun d2 => d1 + d2)) = some ([1, 4, 2, 8, 5, 7] : List Nat).length :=
  ⟨(c6_distance_spec create_sgram_3 (by decide) ("1/7", [1, 4, 2, 8, 5, 7])
      (by decide) [1, 4, 2, 8, 5, 7] (by decide)).1 1 (by decide) 4 (by decide),
   (c6_distance_spec create_sgram_3 (by decide) ("1/7", [1, 4, 2, 8, 5, 7])
      (by decide) [1, 4, 2, 8, 5, 7] (by decide)).2.1 100 1 (Or.inl (by decide)),
   (c6_distance_spec create_sgram_3 (by decide) ("1/7", [1, 4, 2, 8, 5, 7])
      (by decide) [1, 4, 2, 8, 5, 7] (by decide)).2.2.1 1 (by decide),
   (c6_distance_spec create_sgram_3 (by decide) ("1/7", [1, 4, 2, 8, 5, 7])
      (by decide) [1, 4, 2, 8, 5, 7] (by decide)).2.2.2 1 (by decide) 4
      (by decide) (by decide)⟩

theorem trace_step_mem {s : SGram} {p : Option String} {rev : Bool}
    {seq : List Nat} (h : traceSeq s p rev = some seq) {v : Nat}
    (hv : v ∈ seq) : ∃ w, trace_step s v p rev = some w ∧ w ∈ seq := by
  unfold traceSeq at h
  cases hc : chosen_pattern s p with
  | none => rw [hc] at h; exact absurd h (by simp)
  | some l =>
    rw [hc] at h
    have h9 : (if rev then fpOrAf s l else lookupSeq (get_all_patterns s) l) =
        some seq := h
    cases rev with
    | true =>
      rw [if_pos rfl] at h9
      obtain ⟨w, hw, hwm⟩ := prevOfFirst_mem hv
      refine ⟨w, ?_, hwm⟩
      show inform s v p = some w
      unfold inform
      rw [hc]
      show (match fpOrAf s l with
        | none => none
        | some sq => prevOfFirst sq v) = some w
      rw [h9]
      exact hw
    | false =>
      rw [if_neg (by simp)] at h9
      obtain ⟨w, hw, hwm⟩ := stateMapNext_mem hv
      refine ⟨w, ?_, hwm⟩
      show resolve s v p = some w
      unfold resolve
      rw [hc]
      have hk : stateKnown s v = true :=
        stateKnown_of_mem (lookupSeq_mem h9) hv
      show (if stateKnown s v then
        match lookupSeq (get_all_patterns s) l with
        | none => none
        | some sq => stateMapNext sq v
        else none) = some w
      rw [hk, if_pos rfl, h9]
      exact hw

theorem trace_path_aux_spec {s : SGram} {p : Option String} {rev : Bool}
    {seq : List Nat} (h : traceSeq s p rev = some seq) :
    ∀ steps : Nat, ∀ start ∈ seq,
      ∃ l, trace_path_aux s p rev start steps = some l ∧
        l.length = steps ∧
        ∀ k < steps, l.get? k = stepN s p rev (k + 1) start := by
  intro steps
  induction steps with
  | zero =>
    intro start hstart
    exact ⟨[], rfl, rfl, fun k hk => absurd hk (Nat.not_lt_zero k)⟩
  | succ n ih =>
    intro start hstart
    obtain ⟨w, hw, hwm⟩ := trace_step_mem h hstart
    obtain ⟨l, hl, hlen, hget⟩ := ih w hwm
    refine ⟨w :: l, ?_, by simp [hlen], ?_⟩
    · show (match trace_step s start p rev with
        | none => none
        | some nxt => (trace_path_aux s p rev nxt n).map
            (fun t => nxt :: t)) = some (w :: l)
      rw [hw]
      show Option.map (fun t => w :: t) (trace_path_aux s p rev w n) =
        some (w :: l)
      rw [hl]
      rfl
    · intro k hk
      cases k with
      | zero =>
        show some w = (trace_step s start p rev).bind (stepN s p rev 0)
        rw [hw]
        rfl
      | succ m =>
        have hm : m < n := Nat.lt_of_succ_lt_succ hk
        show l.get? m = (trace_step s start p rev).bind (stepN s p rev (m + 1))
        rw [hw]
        show l.get? m = stepN s p rev (m + 1) w
        exact hget m hm

/-- C7: a traced path has length `steps + 1`, starts with the start value,
and its `(k+1)`-th element is the `k`-fold application of `resolve`
(forward) or `inform` (backward), for every start value in the cycle the
trace walks; and, concretely, on S-Gram 3's primary cycle
`'1/7' = [1, 4, 2, 8, 5, 7]`: `resolve 1 = 4`, `inform 4 = 1`, and the
5-step forward trace from 1 is the whole cycle. -/
theorem c7_trace_path_spec :
    (∀ (s : SGram) (p : Option String) (rev : Bool) (seq : List Nat),
      traceSeq s p rev = some seq → ∀ start ∈ seq, ∀ steps : Nat,
      (trace_path s start steps p rev).map List.length = some (steps + 1) ∧
      (trace_path s start steps p rev).bind List.head? = some start ∧
      ∀ k ≤ steps, (trace_path s start steps p rev).bind
        (fun t => t.get? k) = stepN s p rev k start) ∧
    resolve create_sgram_3 1 none = some 4 ∧
    inform create_sgram_3 4 none = some 1 ∧
    trace_path create_sgram_3 1 5 none false = some [1, 4, 2, 8, 5, 7] := by
  refine ⟨?_, by decide, by decide, by decide⟩
  intro s p rev seq h start hstart steps
  obtain ⟨l, hl, hlen, hget⟩ := trace_path_aux_spec h steps start hstart
  unfold trace_path
  rw [hl]
  refine ⟨by simp [hlen], by simp, ?_⟩
  intro k hk
  cases k with
  | zero => rfl
  | succ m =>
    have hm : m < steps := Nat.lt_of_succ_le hk
    show (start :: l).get? (m + 1) = stepN s p rev (m + 1) start
    exact hget m hm

/-- C7 (witness): the trace specification applied at S-Gram 3, default
(primary) pattern, forward direction, start 1, two steps. -/
theorem c7_witness :
    (trace_path create_sgram_3 1 2 none false).map List.length = some 3 ∧
    (trace_path create_sgram_3 1 2 none false).bind List.head? = some 1 :=
  ⟨(c7_trace_path_spec.1 create_sgram_3 none false [1, 4, 2, 8, 5, 7]
      (by decide) 1 (by decide) 2).1,
   (c7_trace_path_spec.1 create_sgram_3 none false [1, 4, 2, 8, 5, 7]
      (by decide) 1 (by decide) 2).2.1⟩
